import Mathlib

/-
  Verification development for the image compression pipeline in
  src/compressor.py (class ImageProcessor and its helpers).

  Shallow embedding conventions:
  * External encoder processes are modelled by oracles: the environment
    supplies, for each potential tool invocation, the process result
    (exit code plus decoded/stripped stdout and stderr) or the fact that
    the executable could not be launched, together with whether the tool
    wrote its output file and with what (abstract) content.
  * File contents are abstract `Nat` values; the filesystem is a map from
    paths to `Option Nat`.
  * Paths are modelled structurally as directory/stem/extension triples;
    the generated unique temp names (uuid4 / NamedTemporaryFile) are
    modelled as fixed fresh names inside the "TMP" directory.
  * Python exceptions are modelled with `Except String`; code that
    catches exceptions pattern-matches on the `.error` case.
-/

/-! ## QualitySearch: `ImageProcessor.find_best_quality` (compressor.py lines 119-134) -/

/-- Result of one probe of the encode function inside `find_best_quality`:
`isSuccess` is the boolean returned by `compress_func`, and `outSize` is
`some n` when a file of `n` bytes exists at the probe's temporary output
path afterwards (`os.path.exists` + `os.path.getsize`), `none` when no
file was left there. -/
structure ProbeResult where
  isSuccess : Bool
  outSize : Option Nat
deriving DecidableEq, Repr

/-- State of the bounded binary search in `find_best_quality`:
`low`, `high`, `best_quality` from the source (with `best = -1` meaning
"no probe fitted yet"), plus the list of qualities probed so far (one
entry per invocation of the encode function, in order). -/
structure SearchState where
  low : Nat
  high : Nat
  best : Int
  calls : List Nat
deriving DecidableEq, Repr

/-- One iteration body of the loop in `find_best_quality` (lines 124-133).
The oracle is indexed by the number of calls already made and the probed
quality, so arbitrary (history-dependent) encoder behaviour is covered.
The probe's temporary file is created before and deleted after the body
in the source (lines 125 and 132-133), so it has no net filesystem
effect and is abstracted into the oracle. -/
def fbqProbe (oracle : Nat → Nat → ProbeResult) (target_bytes : Nat) (s : SearchState) :
    SearchState :=
  let q := (s.low + s.high) / 2
  let r := oracle s.calls.length q
  if r.isSuccess then
    match r.outSize with
    | some sz =>
      if sz ≤ target_bytes then
        { low := q + 1, high := s.high, best := (q : Int), calls := s.calls ++ [q] }
      else { s with high := q - 1, calls := s.calls ++ [q] }
    | none => { s with high := q - 1, calls := s.calls ++ [q] }
  else { s with high := q - 1, calls := s.calls ++ [q] }

/-- The `for _ in range(8)` loop of `find_best_quality` (lines 122-133):
at most `fuel` iterations, stopping early when `low > high`. -/
def fbqLoop (oracle : Nat → Nat → ProbeResult) (target_bytes : Nat) :
    Nat → SearchState → SearchState
  | 0, s => s
  | fuel + 1, s =>
    if s.high < s.low then s
    else fbqLoop oracle target_bytes fuel (fbqProbe oracle target_bytes s)

/-- `ImageProcessor.find_best_quality` (lines 119-134): returns the chosen
quality together with the list of probed qualities (the trace of encode
invocations). The source's `in_path` argument is carried only into the
encode calls and is folded into the oracle. -/
def find_best_quality (oracle : Nat → Nat → ProbeResult) (target_kb : Nat) : Int × List Nat :=
  let target_bytes := target_kb * 1024
  let final := fbqLoop oracle target_bytes 8 { low := 1, high := 100, best := -1, calls := [] }
  (if final.best ≠ -1 then final.best else 1, final.calls)

/-- A probe at call index `i` and quality `q` "fits": the encode reported
success, a file exists at the probe output path, and its size meets the
byte budget. -/
def Fits (oracle : Nat → Nat → ProbeResult) (target_bytes i q : Nat) : Prop :=
  (oracle i q).isSuccess = true ∧
    ∃ sz, (oracle i q).outSize = some sz ∧ sz ≤ target_bytes

instance (oracle : Nat → Nat → ProbeResult) (t i q : Nat) : Decidable (Fits oracle t i q) := by
  unfold Fits
  exact inferInstance

/-- Numeric invariant of the search state. -/
def SearchInv (s : SearchState) : Prop :=
  1 ≤ s.low ∧ s.high ≤ 100 ∧ (s.best = -1 ∨ (1 ≤ s.best ∧ s.best ≤ 100))

theorem fbqProbe_calls (o : Nat → Nat → ProbeResult) (t : Nat) (s : SearchState) :
    (fbqProbe o t s).calls = s.calls ++ [(s.low + s.high) / 2] := by
  simp only [fbqProbe]
  split
  · split
    · split <;> rfl
    · rfl
  · rfl

theorem fbqProbe_inv (o : Nat → Nat → ProbeResult) (t : Nat) (s : SearchState)
    (hlh : s.low ≤ s.high) (h : SearchInv s) : SearchInv (fbqProbe o t s) := by
  obtain ⟨h1, h2, h3⟩ := h
  have hq1 : s.low ≤ (s.low + s.high) / 2 := by omega
  have hq2 : (s.low + s.high) / 2 ≤ s.high := by omega
  simp only [fbqProbe, SearchInv]
  split
  · split
    · split
      · refine ⟨?_, ?_, Or.inr ⟨?_, ?_⟩⟩ <;> dsimp only <;> omega
      · refine ⟨?_, ?_, ?_⟩ <;> dsimp only
        · omega
        · omega
        · exact h3
    · refine ⟨?_, ?_, ?_⟩ <;> dsimp only
      · omega
      · omega
      · exact h3
  · refine ⟨?_, ?_, ?_⟩ <;> dsimp only
    · omega
    · omega
    · exact h3

theorem fbqLoop_inv (o : Nat → Nat → ProbeResult) (t : Nat) (f : Nat) :
    ∀ s, SearchInv s → SearchInv (fbqLoop o t f s) := by
  induction f with
  | zero => intro s h; exact h
  | succ f ih =>
    intro s h
    unfold fbqLoop
    split
    · exact h
    · exact ih _ (fbqProbe_inv o t s (by omega) h)

theorem fbqLoop_len (o : Nat → Nat → ProbeResult) (t : Nat) (f : Nat) :
    ∀ s, (fbqLoop o t f s).calls.length ≤ s.calls.length + f := by
  induction f with
  | zero => intro s; simp [fbqLoop]
  | succ f ih =>
    intro s
    unfold fbqLoop
    split
    · omega
    · have h1 := ih (fbqProbe o t s)
      rw [fbqProbe_calls] at h1
      simp at h1
      omega

theorem fbqProbe_nofit (o : Nat → Nat → ProbeResult) (t : Nat) (s : SearchState)
    (h : ¬ Fits o t s.calls.length ((s.low + s.high) / 2)) :
    (fbqProbe o t s).best = s.best := by
  simp only [fbqProbe]
  split
  next hsucc =>
    split
    next sz hsome =>
      split
      next hle => exact absurd ⟨hsucc, sz, hsome, hle⟩ h
      next => rfl
    next => rfl
  next => rfl

theorem fbqLoop_nofit (o : Nat → Nat → ProbeResult) (t : Nat) (f : Nat)
    (hno : ∀ i q, ¬ Fits o t i q) : ∀ s, (fbqLoop o t f s).best = s.best := by
  induction f with
  | zero => intro s; rfl
  | succ f ih =>
    intro s
    unfold fbqLoop
    split
    · rfl
    · rw [ih (fbqProbe o t s), fbqProbe_nofit o t s (hno _ _)]

/-- C3: for every encode oracle and target size, `find_best_quality`
invokes the encode function at most 8 times, always returns an integer
quality in [1,100], and returns exactly 1 when no probe ever produced an
output of size at most `target_kb * 1024` bytes. -/
theorem find_best_quality_bounds (oracle : Nat → Nat → ProbeResult) (target_kb : Nat) :
    (find_best_quality oracle target_kb).2.length ≤ 8 ∧
    1 ≤ (find_best_quality oracle target_kb).1 ∧
    (find_best_quality oracle target_kb).1 ≤ 100 ∧
    ((∀ i q, ¬ Fits oracle (target_kb * 1024) i q) →
      (find_best_quality oracle target_kb).1 = 1) := by
  have hinv0 : SearchInv { low := 1, high := 100, best := -1, calls := [] } := by
    unfold SearchInv
    refine ⟨?_, ?_, Or.inl ?_⟩ <;> dsimp only <;> omega
  have hlen := fbqLoop_len oracle (target_kb * 1024) 8 { low := 1, high := 100, best := -1, calls := [] }
  have hinv := fbqLoop_inv oracle (target_kb * 1024) 8 _ hinv0
  dsimp only at hlen
  simp only [List.length_nil, Nat.zero_add] at hlen
  obtain ⟨-, -, hi3⟩ := hinv
  simp only [find_best_quality]
  refine ⟨hlen, ?_, ?_, ?_⟩
  · split
    next hne =>
      rcases hi3 with h | ⟨h, -⟩
      · exact absurd h hne
      · exact h
    next => omega
  · split
    next hne =>
      rcases hi3 with h | ⟨-, h⟩
      · exact absurd h hne
      · exact h
    next => omega
  · intro hno
    have hbest := fbqLoop_nofit oracle (target_kb * 1024) 8 hno
      { low := 1, high := 100, best := -1, calls := [] }
    dsimp only at hbest
    rw [hbest]
    simp

/-- Oracle for the witness: every probe reports encode failure with no
output file, so no probe ever fits any budget. -/
def neverFitsOracle : Nat → Nat → ProbeResult := fun _ _ => { isSuccess := false, outSize := none }

/-- Witness for C3 at a concrete oracle and target size. -/
theorem find_best_quality_bounds_witness :
    (find_best_quality neverFitsOracle 10).2.length ≤ 8 ∧
    (find_best_quality neverFitsOracle 10).1 = 1 := by
  refine ⟨(find_best_quality_bounds neverFitsOracle 10).1,
    (find_best_quality_bounds neverFitsOracle 10).2.2.2 ?_⟩
  intro i q hf
  obtain ⟨hs, -⟩ := hf
  simp [neverFitsOracle] at hs

/-- Invariant threaded through the search for monotonicity: the recorded
best quality is always strictly below the current floor. -/
def FloorInv (s : SearchState) : Prop := s.best + 1 ≤ (s.low : Int)

theorem fbqProbe_floor (o : Nat → Nat → ProbeResult) (t : Nat) (s : SearchState)
    (hlh : s.low ≤ s.high) (h : FloorInv s) :
    FloorInv (fbqProbe o t s) ∧ s.best ≤ (fbqProbe o t s).best := by
  have hq1 : s.low ≤ (s.low + s.high) / 2 := by omega
  unfold FloorInv at h
  simp only [fbqProbe, FloorInv]
  split
  · split
    · split
      · constructor <;> dsimp only <;> omega
      · exact ⟨h, le_refl _⟩
    · exact ⟨h, le_refl _⟩
  · exact ⟨h, le_refl _⟩

theorem fbqLoop_floor (o : Nat → Nat → ProbeResult) (t : Nat) (f : Nat) :
    ∀ s, FloorInv s →
      FloorInv (fbqLoop o t f s) ∧ s.best ≤ (fbqLoop o t f s).best := by
  induction f with
  | zero => intro s h; exact ⟨h, le_refl _⟩
  | succ f ih =>
    intro s h
    unfold fbqLoop
    split
    · exact ⟨h, le_refl _⟩
    · obtain ⟨hf, hm⟩ := fbqProbe_floor o t s (by omega) h
      obtain ⟨hf2, hm2⟩ := ih (fbqProbe o t s) hf
      exact ⟨hf2, le_trans hm hm2⟩

/-- C4: if the probe at quality `q = (low + high) / 2` succeeds and its
output size fits the byte budget, then immediately after that probe the
recorded best quality equals `q` and the floor is raised to `q + 1`, and
after any number of further iterations of the search loop the recorded
best quality is still at least `q`. -/
theorem fbqProbe_fit_monotone (o : Nat → Nat → ProbeResult) (t : Nat) (s : SearchState)
    (fuel : Nat) (sz : Nat)
    (hsucc : (o s.calls.length ((s.low + s.high) / 2)).isSuccess = true)
    (hsome : (o s.calls.length ((s.low + s.high) / 2)).outSize = some sz)
    (hle : sz ≤ t) :
    (fbqProbe o t s).best = (((s.low + s.high) / 2 : Nat) : Int) ∧
    (fbqProbe o t s).low = (s.low + s.high) / 2 + 1 ∧
    (((s.low + s.high) / 2 : Nat) : Int) ≤ (fbqLoop o t fuel (fbqProbe o t s)).best := by
  have hp : fbqProbe o t s =
      { low := (s.low + s.high) / 2 + 1, high := s.high,
        best := (((s.low + s.high) / 2 : Nat) : Int),
        calls := s.calls ++ [(s.low + s.high) / 2] } := by
    simp only [fbqProbe]
    split
    next =>
      split
      next sz2 hsome2 =>
        rw [hsome] at hsome2
        injection hsome2 with hsz
        subst hsz
        rw [if_pos hle]
      next hnone2 =>
        rw [hsome] at hnone2
        simp at hnone2
    next hsucc2 => exact absurd hsucc hsucc2
  refine ⟨by rw [hp], by rw [hp], ?_⟩
  have hfl : FloorInv (fbqProbe o t s) := by
    rw [hp]
    unfold FloorInv
    dsimp only
    omega
  have hmono := (fbqLoop_floor o t fuel (fbqProbe o t s) hfl).2
  have hb : (fbqProbe o t s).best = (((s.low + s.high) / 2 : Nat) : Int) := by rw [hp]
  rw [hb] at hmono
  exact hmono

/-- Oracle for the C4 witness: every probe reports success with an empty
output file. -/
def alwaysFitsOracle : Nat → Nat → ProbeResult := fun _ _ => { isSuccess := true, outSize := some 0 }

/-- Witness for C4: with the first probe at quality 50 fitting the budget,
the state after the probe records best 50 and floor 51, and the best
stays at least 50 after three further iterations. -/
theorem fbqProbe_fit_monotone_witness :
    (fbqProbe alwaysFitsOracle 0 { low := 1, high := 100, best := -1, calls := [] }).best = 50 ∧
    (fbqProbe alwaysFitsOracle 0 { low := 1, high := 100, best := -1, calls := [] }).low = 51 ∧
    (50 : Int) ≤
      (fbqLoop alwaysFitsOracle 0 3
        (fbqProbe alwaysFitsOracle 0 { low := 1, high := 100, best := -1, calls := [] })).best := by
  have h := fbqProbe_fit_monotone alwaysFitsOracle 0
    { low := 1, high := 100, best := -1, calls := [] } 3 0 rfl rfl (le_refl 0)
  simpa using h

/-- C10: a probe whose encode reports success but which leaves no file at
the probe's temporary output path is handled exactly like a failed or
oversized probe: the ceiling is lowered to `q - 1` and the recorded best
quality and the floor are unchanged. -/
theorem fbqProbe_success_missing_file (o : Nat → Nat → ProbeResult) (t : Nat) (s : SearchState)
    (hsucc : (o s.calls.length ((s.low + s.high) / 2)).isSuccess = true)
    (hnone : (o s.calls.length ((s.low + s.high) / 2)).outSize = none) :
    fbqProbe o t s =
      { s with high := (s.low + s.high) / 2 - 1, calls := s.calls ++ [(s.low + s.high) / 2] } := by
  simp only [fbqProbe]
  split
  next =>
    split
    next sz2 hsome2 =>
      rw [hnone] at hsome2
      simp at hsome2
    next => rfl
  next hsucc2 => exact absurd hsucc hsucc2

/-- Oracle for the C10 witness: the encode claims success but never
produces an output file. -/
def ghostOracle : Nat → Nat → ProbeResult := fun _ _ => { isSuccess := true, outSize := none }

/-- Witness for C10: from the initial state the ghost probe at quality 50
only lowers the ceiling to 49 and records no best quality. -/
theorem fbqProbe_success_missing_file_witness :
    fbqProbe ghostOracle 1024 { low := 1, high := 100, best := -1, calls := [] } =
      { low := 1, high := 49, best := -1, calls := [50] } := by
  have h := fbqProbe_success_missing_file ghostOracle 1024
    { low := 1, high := 100, best := -1, calls := [] } rfl rfl
  simpa using h

/-! ## Paths, filesystem, and the external process model -/

/-- A filesystem path, modelled structurally: directory, stem (basename
without extension) and extension (with its leading dot, as returned by
os.path.splitext). Generated unique temp names (uuid4 hex suffixes,
NamedTemporaryFile names) are modelled as fixed fresh stems inside the
"TMP" directory. -/
structure FPath where
  dir : String
  stem : String
  ext : String
deriving DecidableEq, Repr

/-- The rendered path string, used where the source passes a path on a
tool command line. -/
def FPath.str (p : FPath) : String := p.dir ++ "/" ++ p.stem ++ p.ext

/-- os.path.basename. -/
def FPath.basename (p : FPath) : String := p.stem ++ p.ext

/-- Abstract filesystem: paths map to abstract byte contents (`Nat`),
`none` meaning the file does not exist. -/
abbrev FS := FPath → Option Nat

def fsWrite (p : FPath) (c : Nat) (fs : FS) : FS := fun q => if q = p then some c else fs q

def fsRemove (p : FPath) (fs : FS) : FS := fun q => if q = p then none else fs q

/-- shutil.copy2: copies the source's bytes to the destination; raises
(FileNotFoundError) when the source does not exist. -/
def shutil_copy2 (src dst : FPath) (fs : FS) : Except String FS :=
  match fs src with
  | none => Except.error ("FileNotFoundError: " ++ src.str)
  | some c => Except.ok (fsWrite dst c fs)

/-- shutil.move: moves the source file to the destination; raises when
the source does not exist. -/
def shutil_move (src dst : FPath) (fs : FS) : Except String FS :=
  match fs src with
  | none => Except.error ("FileNotFoundError: " ++ src.str)
  | some c => Except.ok (fsWrite dst c (fsRemove src fs))

/-- Captured outcome of one completed subprocess.run call: exit code and
the decoded, stripped stdout and stderr texts. -/
structure ProcResult where
  returncode : Int
  stdoutStr : String
  stderrStr : String
deriving DecidableEq, Repr

/-- The stderr-preferred output combination of _run_tool's error branch
(lines 96-98): stderr text if non-empty, else stdout text, else a fixed
placeholder. -/
def combinedOutput (r : ProcResult) : String :=
  if r.stderrStr ≠ "" then r.stderrStr
  else if r.stdoutStr ≠ "" then r.stdoutStr
  else "No output from tool."

/-- ImageProcessor._run_tool (lines 88-102). The environment supplies
`some r` for a completed process and `none` when the executable could
not be launched (the FileNotFoundError branch; the final catch-all
branch for other launch failures is not distinguished, no claim touches
it). pngquant exit codes 98 and 99 are the "nothing to improve"
outcomes, reported as success with the literal message
"Already Optimized"; any other non-zero exit is a failure whose message
combines the tool name, exit code and captured output. Logging side
effects are not modelled. -/
def run_tool (tool_name : String) (res : Option ProcResult) : Bool × String :=
  match res with
  | none => (false, "Tool not found: " ++ tool_name)
  | some r =>
    if tool_name = "pngquant.exe" ∧ (r.returncode = 98 ∨ r.returncode = 99) then
      (true, "Already Optimized")
    else if r.returncode ≠ 0 then
      (false, "Error from " ++ tool_name ++ " (code " ++ toString r.returncode ++ "):\n" ++
        combinedOutput r)
    else (true, "Success")

/-! ## PNG encoder: `ImageProcessor.compress_png` (lines 135-158) -/

/-- Environment of one compress_png call: whether each tool binary is
present (get_tool_path), the process outcome of each potential tool
invocation, and each tool's effect on its designated output file
(whether it wrote one, with what abstract content). -/
structure PngEnv where
  pngquantFound : Bool
  zopflipngFound : Bool
  quantRun : Option ProcResult
  quantWrote : Bool
  quantContent : Nat
  zopfliRun : Option ProcResult
  zopfliWrote : Bool
  zopfliContent : Nat

/-- The quantizer's intermediate path tempdir/quant_<basename of out>
used when the further-compression pass is requested (line 138). -/
def quantTempPath (out_path : FPath) : FPath :=
  { dir := "TMP", stem := "quant_" ++ out_path.stem, ext := out_path.ext }

/-- Result of compress_png: the returned (ok, message) pair or a raised
exception, the filesystem afterwards, the tool commands run in order,
and the temporary files this call created besides the caller-supplied
output path. -/
structure PngOut where
  res : Except String (Bool × String)
  fs : FS
  cmds : List (List String)
  createdTemps : List FPath

/-- ImageProcessor.compress_png (lines 135-158): run pngquant into
`temp_path` (the output path itself when no further pass is requested,
an intermediate otherwise); on "Already Optimized" either copy the
original verbatim to the output (no further pass) or run zopflipng on
the original input into the output (further pass); otherwise run
zopflipng on the quantizer's intermediate, or report plain success. The
finally block removes the intermediate when the further pass was
requested and the file exists, on every exit path including raised
exceptions. -/
def compress_png (env : PngEnv) (in_path out_path : FPath) (quality_range : String)
    (use_zopfli : Bool) (fs : FS) : PngOut :=
  if ¬(env.pngquantFound = true ∧ env.zopflipngFound = true) then
    { res := Except.ok (false, "PNG tools (pngquant/zopflipng) not found."), fs := fs,
      cmds := [], createdTemps := [] }
  else
    let temp_path := if ¬use_zopfli then out_path else quantTempPath out_path
    let p_command := ["pngquant.exe", "--force", "--strip", "--quality", quality_range,
      "--speed=1", "--output", temp_path.str, in_path.str]
    let quantOutcome := run_tool "pngquant.exe" env.quantRun
    let fs1 := if env.quantWrote then fsWrite temp_path env.quantContent fs else fs
    let created := if env.quantWrote ∧ use_zopfli = true then [temp_path] else []
    let body : Except String (Bool × String) × FS × List (List String) :=
      if quantOutcome.1 = false then (Except.ok (false, quantOutcome.2), fs1, [p_command])
      else if quantOutcome.2 = "Already Optimized" then
        if ¬use_zopfli then
          match shutil_copy2 in_path out_path fs1 with
          | Except.error e => (Except.error e, fs1, [p_command])
          | Except.ok fs2 => (Except.ok (true, quantOutcome.2), fs2, [p_command])
        else
          if ¬(env.zopflipngFound = true) then
            (Except.ok (false, "zopflipng.exe not found."), fs1, [p_command])
          else
            let z_command := ["zopflipng.exe", "-y", "--iterations=15", in_path.str, out_path.str]
            let z := run_tool "zopflipng.exe" env.zopfliRun
            let fs2 := if env.zopfliWrote then fsWrite out_path env.zopfliContent fs1 else fs1
            (Except.ok z, fs2, [p_command, z_command])
      else if use_zopfli then
        if ¬(env.zopflipngFound = true) then
          (Except.ok (false, "zopflipng.exe not found."), fs1, [p_command])
        else
          let z_command := ["zopflipng.exe", "-y", "--iterations=15", temp_path.str, out_path.str]
          let z := run_tool "zopflipng.exe" env.zopfliRun
          let fs2 := if env.zopfliWrote then fsWrite out_path env.zopfliContent fs1 else fs1
          (Except.ok z, fs2, [p_command, z_command])
      else (Except.ok (true, "Success"), fs1, [p_command])
    let fsFinal := if use_zopfli = true ∧ (body.2.1 temp_path).isSome = true
      then fsRemove temp_path body.2.1 else body.2.1
    { res := body.1, fs := fsFinal, cmds := body.2.2, createdTemps := created }

/-- Concrete environment for the C2 counterexample: both tools present,
pngquant exits 98 (so _run_tool reports "Already Optimized" and the
quantizer wrote nothing), zopflipng exits 0 and writes its output. -/
def c2Env : PngEnv :=
  { pngquantFound := true, zopflipngFound := true,
    quantRun := some { returncode := 98, stdoutStr := "", stderrStr := "" },
    quantWrote := false, quantContent := 0,
    zopfliRun := some { returncode := 0, stdoutStr := "", stderrStr := "" },
    zopfliWrote := true, zopfliContent := 5 }

/-- Input path for the C2 counterexample. -/
def c2In : FPath := { dir := "D", stem := "pic", ext := ".png" }

/-- Output path for the C2 counterexample. -/
def c2Out : FPath := { dir := "TMP", stem := "tmp0", ext := ".png" }

/-- Filesystem for the C2 counterexample: only the input file exists. -/
def c2Fs : FS := fun q => if q = c2In then some 7 else none

/-- Counterexample for C2 as stated: with the maximum-compression pass
enabled and the quantizer reporting "Already Optimized", compress_png
returns the zopfli pass's outcome (true, "Success"), not a successful
outcome whose message is "Already Optimized". -/
theorem compress_png_zopfli_message_counterexample :
    (compress_png c2Env c2In c2Out "60-80" true c2Fs).res = Except.ok (true, "Success") ∧
    (compress_png c2Env c2In c2Out "60-80" true c2Fs).res ≠
      Except.ok (true, "Already Optimized") := by
  constructor
  · rfl
  · intro h
    rw [show (compress_png c2Env c2In c2Out "60-80" true c2Fs).res =
      Except.ok (true, "Success") from rfl] at h
    simp at h

/-- C2 (amended): when the quantizer stage reports "Already Optimized"
(and, per pngquant's 98/99 semantics, wrote no output file): with the
maximum-compression pass disabled, compress_png copies the original
verbatim to the output path and returns success with the message
"Already Optimized"; with the pass enabled, it instead returns the
zopfli invocation's outcome (message "Success" when that tool exits
zero), so "Already Optimized" does not propagate on that path. -/
theorem compress_png_already_optimized_messages (env : PngEnv) (in_path out_path : FPath)
    (quality_range : String) (fs : FS) (c : Nat)
    (hpf : env.pngquantFound = true) (hzf : env.zopflipngFound = true)
    (hq : run_tool "pngquant.exe" env.quantRun = (true, "Already Optimized"))
    (hnw : env.quantWrote = false)
    (hin : fs in_path = some c) :
    (compress_png env in_path out_path quality_range false fs).res =
      Except.ok (true, "Already Optimized") ∧
    (compress_png env in_path out_path quality_range true fs).res =
      Except.ok (run_tool "zopflipng.exe" env.zopfliRun) := by
  constructor
  · simp [compress_png, hpf, hzf, hq, hnw, shutil_copy2, hin]
  · simp [compress_png, hpf, hzf, hq, hnw]

/-- Environment for the C2 amended-claim witness. -/
def c2WitEnv : PngEnv :=
  { pngquantFound := true, zopflipngFound := true,
    quantRun := some { returncode := 99, stdoutStr := "", stderrStr := "" },
    quantWrote := false, quantContent := 0,
    zopfliRun := some { returncode := 0, stdoutStr := "", stderrStr := "" },
    zopfliWrote := true, zopfliContent := 5 }

/-- Input path for the C2 amended-claim witness. -/
def c2WitIn : FPath := { dir := "D", stem := "photo", ext := ".png" }

/-- Output path for the C2 amended-claim witness. -/
def c2WitOut : FPath := { dir := "TMP", stem := "tmp1", ext := ".png" }

/-- Filesystem for the C2 amended-claim witness. -/
def c2WitFs : FS := fun q => if q = c2WitIn then some 3 else none

/-- Witness for the amended C2 at a concrete environment. -/
theorem compress_png_already_optimized_messages_witness :
    (compress_png c2WitEnv c2WitIn c2WitOut "60-80" false c2WitFs).res =
      Except.ok (true, "Already Optimized") ∧
    (compress_png c2WitEnv c2WitIn c2WitOut "60-80" true c2WitFs).res =
      Except.ok (true, "Success") := by
  have h := compress_png_already_optimized_messages c2WitEnv c2WitIn c2WitOut "60-80" c2WitFs 3
    rfl rfl rfl rfl rfl
  exact h

/-- C5: with the maximum-compression pass enabled and the quantizer
reporting "Already Optimized", the commands run are exactly the
quantizer invocation followed by the further-compression tool invoked
with the original input path as source and the designated output path
as destination, with the fixed iteration count. -/
theorem compress_png_zopfli_on_original (env : PngEnv) (in_path out_path : FPath)
    (quality_range : String) (fs : FS)
    (hpf : env.pngquantFound = true) (hzf : env.zopflipngFound = true)
    (hq : run_tool "pngquant.exe" env.quantRun = (true, "Already Optimized")) :
    (compress_png env in_path out_path quality_range true fs).cmds =
      [["pngquant.exe", "--force", "--strip", "--quality", quality_range, "--speed=1",
        "--output", (quantTempPath out_path).str, in_path.str],
       ["zopflipng.exe", "-y", "--iterations=15", in_path.str, out_path.str]] := by
  simp [compress_png, hpf, hzf, hq]

/-- Environment for the C5 witness. -/
def c5Env : PngEnv :=
  { pngquantFound := true, zopflipngFound := true,
    quantRun := some { returncode := 98, stdoutStr := "", stderrStr := "" },
    quantWrote := false, quantContent := 0,
    zopfliRun := some { returncode := 0, stdoutStr := "", stderrStr := "" },
    zopfliWrote := true, zopfliContent := 9 }

/-- Input path for the C5 witness. -/
def c5In : FPath := { dir := "D", stem := "icon", ext := ".png" }

/-- Output path for the C5 witness. -/
def c5Out : FPath := { dir := "TMP", stem := "tmp2", ext := ".png" }

/-- Witness for C5: at a concrete environment the zopfli command's
source is the original input and its destination the output path. -/
theorem compress_png_zopfli_on_original_witness :
    (compress_png c5Env c5In c5Out "60-80" true (fun _ => none)).cmds =
      [["pngquant.exe", "--force", "--strip", "--quality", "60-80", "--speed=1",
        "--output", "TMP/quant_tmp2.png", "D/icon.png"],
       ["zopflipng.exe", "-y", "--iterations=15", "D/icon.png", "TMP/tmp2.png"]] := by
  have h := compress_png_zopfli_on_original c5Env c5In c5Out "60-80" (fun _ => none)
    rfl rfl rfl
  exact h

/-! ## Image inspection: the opacity check of lines 103-110 -/

/-- Minimal view of a decoded PIL image, as inspected by the opacity
check: the color mode, whether img.info carries a
'transparency' entry, the band names, and the alpha channel samples. -/
structure PILImage where
  mode : String
  transparencyInInfo : Bool
  bands : List String
  alphaSamples : List Nat

/-- The opacity check of lines 103-110 (named with a _check suffix
here): opening or
inspecting the image is supplied by the environment as an
`Except String PILImage`; any exception anywhere in the with-block is
the `.error` case and yields False. A palette-mode image with a
transparency entry is not opaque; otherwise the image is opaque iff it
has no alpha band or no alpha sample is below 255. -/
def is_png_fully_opaque_check (opened : Except String PILImage) : Bool :=
  match opened with
  | Except.error _ => false
  | Except.ok img =>
    if img.mode = "P" ∧ img.transparencyInInfo = true then false
    else if img.bands.contains "A" then
      !(img.alphaSamples.any (fun px => decide (px < 255)))
    else true

/-! ## Option handling and naming policy of `process_file` (lines 180-193) -/

/-- Python str.lower, per character (ASCII is adequate for the values
compared here). -/
def lowerStr (s : String) : String := String.mk (s.toList.map Char.toLower)

/-- Python str.replace(".", "") as applied to extensions (line 185). -/
def removeDots (s : String) : String := String.mk (s.toList.filter (fun ch => ch != '.'))

/-- Python str.strip(".") as applied to extensions (line 205). -/
def stripDots (s : String) : String :=
  String.mk
    (((s.toList.dropWhile (fun ch => ch == '.')).reverse.dropWhile (fun ch => ch == '.')).reverse)

/-- STRINGS["keep_original_format"]. -/
def keep_original_format : String := "Keep Original"

/-- STRINGS["original_folder"]. -/
def original_folder : String := "Original Folder"

/-- STRINGS["overwrite_format_error"]. -/
def overwrite_format_error : String := "Cannot overwrite file when changing its format."

/-- The per-file options dictionary. The source reads entries with
dict.get and defaults; both callers supply every key, so the model takes
the already-defaulted values. -/
structure Options where
  resize_enabled : Bool
  width : Int
  height : Int
  mode : String
  quality : Int
  target_size : Nat
  output_dir : String
  suffix : String
  format : String
  overwrite : Bool
  max_png : Bool
  auto_convert_png : Bool

/-- Target-format derivation of process_file (lines 183-187): an
explicit conversion request wins, else the input's own extension; a
fully opaque PNG with auto-convert enabled and no explicit request is
forced to JPEG, which also marks the operation as format-converting. -/
def derivedTarget (p : FPath) (opts : Options) (opened : Except String PILImage) :
    String × Bool :=
  let is_converting_format : Bool := opts.format != keep_original_format
  let target_format := if is_converting_format then lowerStr opts.format
    else removeDots (lowerStr p.ext)
  if opts.auto_convert_png = true ∧ lowerStr p.ext = ".png" ∧ is_converting_format = false
      ∧ is_png_fully_opaque_check opened = true then
    ("jpeg", true)
  else (target_format, is_converting_format)

/-- Final output path policy of process_file (lines 190-192): the
original path when overwriting, else directory (the input's own unless a
real output directory was chosen) plus stem+suffix plus the target
format as extension. -/
def final_output_path (p : FPath) (opts : Options) (target_format : String) : FPath :=
  if opts.overwrite then p
  else
    { dir := if opts.output_dir ≠ original_folder then opts.output_dir else p.dir,
      stem := p.stem ++ opts.suffix,
      ext := "." ++ target_format }

/-! ## Encoders and staging helpers -/

/-- Environment of one single-tool encoder call (cjpeg/cwebp): binary
present, process outcome, and the tool's effect on its output file. -/
structure ToolEnv where
  found : Bool
  run : Option ProcResult
  wrote : Bool
  content : Nat

/-- ImageProcessor.compress_jpeg (lines 111-114). -/
def compress_jpeg (env : ToolEnv) (in_path out_path : FPath) (quality : Int) (fs : FS) :
    (Bool × String) × FS × List (List String) :=
  if ¬(env.found = true) then ((false, "cjpeg.exe not found."), fs, [])
  else
    let command := ["cjpeg.exe", "-quality", toString quality, "-progressive", "-outfile",
      out_path.str, in_path.str]
    (run_tool "cjpeg.exe" env.run,
      (if env.wrote then fsWrite out_path env.content fs else fs), [command])

/-- ImageProcessor.compress_webp (lines 115-118). -/
def compress_webp (env : ToolEnv) (in_path out_path : FPath) (quality : Int) (fs : FS) :
    (Bool × String) × FS × List (List String) :=
  if ¬(env.found = true) then ((false, "cwebp.exe not found."), fs, [])
  else
    let command := ["cwebp.exe", "-q", toString quality, in_path.str, "-o", out_path.str]
    (run_tool "cwebp.exe" env.run,
      (if env.wrote then fsWrite out_path env.content fs else fs), [command])

/-- ImageProcessor._safe_copy_for_processing (lines 159-167): when the
path is not encodable as ASCII, copy the file to a generated safe temp
path (keeping the extension) and also return that path for later
deletion; the ascii-encodability of the path is supplied by the
environment and the uuid stem is modelled as a fixed fresh name. -/
def safe_copy_for_processing (p : FPath) (isAscii : Bool) (fs : FS) :
    Except String (FPath × Option FPath × FS) :=
  if isAscii then Except.ok (p, none, fs)
  else
    let safe_path : FPath := { dir := "TMP", stem := "temp_safe", ext := p.ext }
    match shutil_copy2 p safe_path fs with
    | Except.error e => Except.error e
    | Except.ok fs2 => Except.ok (safe_path, some safe_path, fs2)

/-- The pngquant quality-range string of process_file line 216. -/
def quality_range_for (quality : Int) : String :=
  if quality > 10 then toString (quality - 10) ++ "-" ++ toString quality
  else "0-" ++ toString quality

/-! ## FileOrchestrator: `ImageProcessor.process_file` (lines 180-235) -/

/-- Environment of one process_file call: the opened input image (for
the opacity check), path ascii-encodability, the outcomes of the
decode/resize/save and convert steps (abstract content on success, a
raised exception otherwise), the encoder tool environments, the ICO save
outcome, and the probe oracles for size-targeted search. -/
structure Env where
  inputImage : Except String PILImage
  pathIsAscii : Bool
  resizeOutcome : Except String Nat
  convertOutcome : Except String Nat
  jpeg : ToolEnv
  webp : ToolEnv
  icoOutcome : Except String Nat
  png : PngEnv
  jpegProbe : Nat → Nat → ProbeResult
  webpProbe : Nat → Nat → ProbeResult

/-- State at an exit point of the try-block of process_file: the normal
or exceptional result, the filesystem, the source's `temp_files` list as
it stands at that point (consumed by the finally block), the ledger of
every temp artifact created so far (model-level bookkeeping used to
state the no-leak property), and the external commands run. -/
structure BodyOut where
  res : Except String (Bool × String)
  fs : FS
  temp_files : List FPath
  created : List FPath
  cmds : List (List String)

/-- Lines 228-231 of process_file: on success, move the temp output to
the final path unless the message is the "is already optimized" text,
then drop the temp output from temp_files; on failure return the
message. A raised move error leaves temp_files intact (the remove on
line 230 is not reached). -/
def finalizeEncode (original_basename : String) (temp_output_path final_out : FPath)
    (is_success : Bool) (message : String) (fs : FS) (temp_files created : List FPath)
    (cmds : List (List String)) : BodyOut :=
  if is_success then
    if message ≠ "'" ++ original_basename ++ "' is already optimized." then
      match shutil_move temp_output_path final_out fs with
      | Except.error e =>
        { res := Except.error e, fs := fs, temp_files := temp_files, created := created,
          cmds := cmds }
      | Except.ok fs2 =>
        { res := Except.ok (true, message), fs := fs2,
          temp_files := temp_files.erase temp_output_path, created := created, cmds := cmds }
    else
      { res := Except.ok (true, message), fs := fs,
        temp_files := temp_files.erase temp_output_path, created := created, cmds := cmds }
  else
    { res := Except.ok (false, message), fs := fs, temp_files := temp_files, created := created,
      cmds := cmds }

/-- The try-block of process_file (lines 195-231): safe-copy staging,
optional resize, optional format bridge, encoder dispatch, and the
success finalization. Each stage that can raise returns `.error`, which
the caller maps to the generic failure message. The resize and convert
steps write a fresh temp artifact on success; the per-probe temp files
of find_best_quality are created and deleted within each probe (lines
125, 132-133) and so never appear in the ledger. -/
def process_body (p : FPath) (opts : Options) (env : Env) (target_format : String)
    (original_basename : String) (temp_output_path final_out : FPath) (fs : FS) : BodyOut :=
  let temp_files : List FPath := [temp_output_path]
  let created : List FPath := [temp_output_path]
  match safe_copy_for_processing p env.pathIsAscii fs with
  | Except.error e =>
    { res := Except.error e, fs := fs, temp_files := temp_files, created := created, cmds := [] }
  | Except.ok (current1, safeCopy, fs1) =>
    let temp_files := temp_files ++ safeCopy.toList
    let created := created ++ safeCopy.toList
    let resizeStep : Except String (FPath × FS × List FPath) :=
      if opts.resize_enabled = true ∧ opts.width > 0 ∧ opts.height > 0 then
        let temp_resized : FPath := { dir := "TMP", stem := "resized", ext := current1.ext }
        match env.resizeOutcome with
        | Except.error e => Except.error e
        | Except.ok content =>
          Except.ok (temp_resized, fsWrite temp_resized content fs1, [temp_resized])
      else Except.ok (current1, fs1, [])
    match resizeStep with
    | Except.error e =>
      { res := Except.error e, fs := fs1, temp_files := temp_files, created := created,
        cmds := [] }
    | Except.ok (current2, fs2, newTemps2) =>
      let temp_files := temp_files ++ newTemps2
      let created := created ++ newTemps2
      let convertStep : Except String (FPath × FS × List FPath) :=
        if stripDots (lowerStr current2.ext) ≠ target_format then
          let temp_converted : FPath :=
            { dir := "TMP", stem := "converted", ext := "." ++ target_format }
          match env.convertOutcome with
          | Except.error e => Except.error e
          | Except.ok content =>
            Except.ok (temp_converted, fsWrite temp_converted content fs2, [temp_converted])
        else Except.ok (current2, fs2, [])
      match convertStep with
      | Except.error e =>
        { res := Except.error e, fs := fs2, temp_files := temp_files, created := created,
          cmds := [] }
      | Except.ok (current3, fs3, newTemps3) =>
        let temp_files := temp_files ++ newTemps3
        let created := created ++ newTemps3
        if target_format = "jpeg" ∨ target_format = "jpg" then
          let quality := if opts.mode = "size"
            then (find_best_quality env.jpegProbe opts.target_size).1 else opts.quality
          let r := compress_jpeg env.jpeg current3 temp_output_path quality fs3
          let message := if r.1.1 then
              "'" ++ original_basename ++ "' -> JPEG, quality " ++ toString quality ++ "."
            else r.1.2
          finalizeEncode original_basename temp_output_path final_out r.1.1 message r.2.1
            temp_files created r.2.2
        else if target_format = "png" then
          let r := compress_png env.png current3 temp_output_path
            (quality_range_for opts.quality) opts.max_png fs3
          match r.res with
          | Except.error e =>
            { res := Except.error e, fs := r.fs, temp_files := temp_files,
              created := created ++ r.createdTemps, cmds := r.cmds }
          | Except.ok rr =>
            let message := if rr.1 = true ∧ rr.2 = "Already Optimized" then
                "'" ++ original_basename ++ "' is already optimized."
              else if rr.1 then "'" ++ original_basename ++ "' compressed to PNG."
              else rr.2
            finalizeEncode original_basename temp_output_path final_out rr.1 message r.fs
              temp_files (created ++ r.createdTemps) r.cmds
        else if target_format = "webp" then
          let quality := if opts.mode = "size"
            then (find_best_quality env.webpProbe opts.target_size).1 else opts.quality
          let r := compress_webp env.webp current3 temp_output_path quality fs3
          let message := if r.1.1 then
              "'" ++ original_basename ++ "' -> WEBP, quality " ++ toString quality ++ "."
            else r.1.2
          finalizeEncode original_basename temp_output_path final_out r.1.1 message r.2.1
            temp_files created r.2.2
        else if target_format = "ico" then
          match env.icoOutcome with
          | Except.error e =>
            { res := Except.error e, fs := fs3, temp_files := temp_files, created := created,
              cmds := [] }
          | Except.ok content =>
            finalizeEncode original_basename temp_output_path final_out true
              ("'" ++ original_basename ++ "' -> ICO.")
              (fsWrite temp_output_path content fs3) temp_files created []
        else
          { res := Except.ok (false, "Unsupported file type"), fs := fs3,
            temp_files := temp_files, created := created, cmds := [] }

/-- Everything process_file does after the conflict check and before the
except/finally handling: compute the final output path, create the temp
output file (NamedTemporaryFile, line 193), and run the try-block. -/
def process_staged (p : FPath) (opts : Options) (env : Env) (target_format : String)
    (fs : FS) : BodyOut :=
  let temp_output_path : FPath := { dir := "TMP", stem := "tmp_out", ext := "." ++ target_format }
  process_body p opts env target_format p.basename temp_output_path
    (final_output_path p opts target_format) (fsWrite temp_output_path 0 fs)

/-- Overall result of process_file: the returned (ok, message) pair, the
final filesystem, the ledger of temp artifacts created during the call,
and the external commands run. -/
structure PFResult where
  ok : Bool
  msg : String
  fs : FS
  created : List FPath
  cmds : List (List String)

/-- ImageProcessor.process_file (lines 180-235): derive the target
format, reject overwrite combined with a format change, create the temp
output file, run the staged pipeline, map a raised exception to the
generic failure message (line 232), and run the finally block (lines
233-235), which deletes every entry still in temp_files that exists. -/
def process_file (p : FPath) (opts : Options) (env : Env) (fs : FS) : PFResult :=
  let dt := derivedTarget p opts env.inputImage
  if opts.overwrite = true ∧ dt.2 = true then
    { ok := false, msg := overwrite_format_error, fs := fs, created := [], cmds := [] }
  else
    let body := process_staged p opts env dt.1 fs
    let r := match body.res with
      | Except.ok rr => rr
      | Except.error e => (false, "An unexpected error occurred: " ++ e)
    let fsF := body.temp_files.foldl
      (fun acc f => if (acc f).isSome then fsRemove f acc else acc) body.fs
    { ok := r.1, msg := r.2, fs := fsF, created := body.created, cmds := body.cmds }

/-- C6: overwrite-in-place combined with a format-changing target
(explicit or forced by the opaque-PNG auto-convert, both captured by the
derived converting flag) makes process_file fail with the
overwrite-format-conflict message before anything happens: the
filesystem is returned unchanged (so the original file's bytes are
untouched), no temporary artifact is created and no tool command is
run. -/
theorem process_file_overwrite_conflict (p : FPath) (opts : Options) (env : Env) (fs : FS)
    (hover : opts.overwrite = true)
    (hconv : (derivedTarget p opts env.inputImage).2 = true) :
    process_file p opts env fs =
      { ok := false, msg := overwrite_format_error, fs := fs, created := [], cmds := [] } := by
  simp only [process_file]
  rw [if_pos ⟨hover, hconv⟩]

/-- Image value for the C6 witness. -/
def c6Img : PILImage :=
  { mode := "RGBA", transparencyInInfo := false, bands := ["R", "G", "B", "A"],
    alphaSamples := [255, 255] }

/-- Environment for the C6 witness. -/
def c6Env : Env :=
  { inputImage := Except.ok c6Img, pathIsAscii := true,
    resizeOutcome := Except.ok 1, convertOutcome := Except.ok 2,
    jpeg := { found := true, run := none, wrote := false, content := 0 },
    webp := { found := true, run := none, wrote := false, content := 0 },
    icoOutcome := Except.ok 3,
    png := { pngquantFound := true, zopflipngFound := true, quantRun := none,
             quantWrote := false, quantContent := 0, zopfliRun := none,
             zopfliWrote := false, zopfliContent := 0 },
    jpegProbe := fun _ _ => { isSuccess := false, outSize := none },
    webpProbe := fun _ _ => { isSuccess := false, outSize := none } }

/-- Options for the C6 witness: overwrite together with an explicit
conversion to WEBP. -/
def c6Opts : Options :=
  { resize_enabled := false, width := 0, height := 0, mode := "quality", quality := 75,
    target_size := 150, output_dir := original_folder, suffix := "-tiny", format := "WEBP",
    overwrite := true, max_png := false, auto_convert_png := false }

/-- Input path for the C6 witness. -/
def c6In : FPath := { dir := "D", stem := "photo", ext := ".jpg" }

/-- Filesystem for the C6 witness. -/
def c6Fs : FS := fun q => if q = c6In then some 11 else none

/-- Witness for C6 at a concrete conflicting configuration. -/
theorem process_file_overwrite_conflict_witness :
    process_file c6In c6Opts c6Env c6Fs =
      { ok := false, msg := overwrite_format_error, fs := c6Fs, created := [], cmds := [] } := by
  exact process_file_overwrite_conflict c6In c6Opts c6Env c6Fs rfl rfl

/-- C7: for a PNG input with auto-convert enabled and no explicit target
format, an image whose palette carries no transparency entry and whose
alpha samples are all 255 derives target format JPEG with the converting
flag set, and (without overwrite) the computed output path carries the
.jpeg extension; an image with an alpha band containing a sample below
255 keeps target format PNG. -/
theorem process_file_auto_convert_opacity (p : FPath) (opts : Options) (img bad : PILImage)
    (hext : lowerStr p.ext = ".png")
    (hauto : opts.auto_convert_png = true)
    (hfmt : opts.format = keep_original_format)
    (hov : opts.overwrite = false)
    (hmode : ¬(img.mode = "P" ∧ img.transparencyInInfo = true))
    (halpha : ∀ a ∈ img.alphaSamples, a = 255)
    (hband : bad.bands.contains "A" = true)
    (hbad : ∃ a ∈ bad.alphaSamples, a < 255) :
    derivedTarget p opts (Except.ok img) = ("jpeg", true) ∧
    (final_output_path p opts "jpeg").ext = ".jpeg" ∧
    derivedTarget p opts (Except.ok bad) = ("png", false) := by
  have hopq : is_png_fully_opaque_check (Except.ok img) = true := by
    simp only [is_png_fully_opaque_check]
    rw [if_neg hmode]
    split
    · simp only [Bool.not_eq_true', List.any_eq_false, decide_eq_true_eq]
      intro a ha
      have := halpha a ha
      omega
    · rfl
  have hbadop : is_png_fully_opaque_check (Except.ok bad) = false := by
    simp only [is_png_fully_opaque_check]
    by_cases h1 : bad.mode = "P" ∧ bad.transparencyInInfo = true
    · rw [if_pos h1]
    · rw [if_neg h1, if_pos hband]
      obtain ⟨a, ha, hlt⟩ := hbad
      simp only [Bool.not_eq_false', List.any_eq_true, decide_eq_true_eq]
      exact ⟨a, ha, hlt⟩
  refine ⟨?_, ?_, ?_⟩
  · simp [derivedTarget, hfmt, hauto, hext, hopq]
  · simp [final_output_path, hov]
  · simp [derivedTarget, hfmt, hauto, hext, hbadop]
    decide

/-- Opaque image for the C7 witness. -/
def c7Img : PILImage :=
  { mode := "RGBA", transparencyInInfo := false, bands := ["R", "G", "B", "A"],
    alphaSamples := [255, 255, 255] }

/-- Non-opaque image for the C7 witness. -/
def c7Bad : PILImage :=
  { mode := "RGBA", transparencyInInfo := false, bands := ["R", "G", "B", "A"],
    alphaSamples := [255, 200] }

/-- Options for the C7 witness: auto-convert on, keep-original format,
no overwrite. -/
def c7Opts : Options :=
  { resize_enabled := false, width := 0, height := 0, mode := "quality", quality := 75,
    target_size := 150, output_dir := original_folder, suffix := "-tiny",
    format := keep_original_format, overwrite := false, max_png := false,
    auto_convert_png := true }

/-- Input path for the C7 witness. -/
def c7In : FPath := { dir := "D", stem := "art", ext := ".png" }

/-- Witness for C7 at concrete images and options. -/
theorem process_file_auto_convert_opacity_witness :
    derivedTarget c7In c7Opts (Except.ok c7Img) = ("jpeg", true) ∧
    (final_output_path c7In c7Opts "jpeg").ext = ".jpeg" ∧
    derivedTarget c7In c7Opts (Except.ok c7Bad) = ("png", false) := by
  exact process_file_auto_convert_opacity c7In c7Opts c7Img c7Bad (by decide) rfl rfl rfl
    (by decide) (by decide) (by decide) (by decide)

/-- C9: when opening or inspecting the image raises any exception,
is_png_fully_opaque_check returns False, and hence a PNG input with
auto-convert enabled and no explicit conversion request keeps target
format "png" — a corrupt or unreadable PNG is never auto-converted to
JPEG. -/
theorem opacity_check_error (e : String) (p : FPath) (opts : Options)
    (hext : lowerStr p.ext = ".png") (hfmt : opts.format = keep_original_format) :
    is_png_fully_opaque_check (Except.error e) = false ∧
    derivedTarget p opts (Except.error e) = ("png", false) := by
  constructor
  · rfl
  · simp [derivedTarget, hfmt, hext, is_png_fully_opaque_check]
    decide

/-- Options for the C9 witness. -/
def c9Opts : Options :=
  { resize_enabled := false, width := 0, height := 0, mode := "quality", quality := 75,
    target_size := 150, output_dir := original_folder, suffix := "-tiny",
    format := keep_original_format, overwrite := false, max_png := false,
    auto_convert_png := true }

/-- Input path for the C9 witness. -/
def c9In : FPath := { dir := "D", stem := "broken", ext := ".png" }

/-- Witness for C9 at a concrete raised exception. -/
theorem opacity_check_error_witness :
    is_png_fully_opaque_check (Except.error "truncated file") = false ∧
    derivedTarget c9In c9Opts (Except.error "truncated file") = ("png", false) := by
  exact opacity_check_error "truncated file" c9In c9Opts (by decide) rfl

/-- C8: a raised exception from the staged pipeline (safe-copy staging,
resize, format conversion, encoding, finalization — the try-block of
lines 195-231) never escapes process_file: whenever the pipeline raises
`e`, process_file still returns normally, as a failure carrying the
generic message built from `e` (line 232). The conflict-guard path is
excluded only because the pipeline is never entered there. -/
theorem process_file_catches_exceptions (p : FPath) (opts : Options) (env : Env) (fs : FS)
    (e : String)
    (hnc : ¬(opts.overwrite = true ∧ (derivedTarget p opts env.inputImage).2 = true))
    (herr : (process_staged p opts env (derivedTarget p opts env.inputImage).1 fs).res =
      Except.error e) :
    (process_file p opts env fs).ok = false ∧
    (process_file p opts env fs).msg = "An unexpected error occurred: " ++ e := by
  simp only [process_file]
  rw [if_neg hnc, herr]
  exact ⟨rfl, rfl⟩

/-- Environment for the C8 witness: the input path is not
ASCII-encodable and the file is missing, so the safe-copy stage raises
FileNotFoundError. -/
def c8Env : Env :=
  { inputImage := Except.error "cannot identify image file", pathIsAscii := false,
    resizeOutcome := Except.ok 1, convertOutcome := Except.ok 2,
    jpeg := { found := true, run := none, wrote := false, content := 0 },
    webp := { found := true, run := none, wrote := false, content := 0 },
    icoOutcome := Except.ok 3,
    png := { pngquantFound := true, zopflipngFound := true, quantRun := none,
             quantWrote := false, quantContent := 0, zopfliRun := none,
             zopfliWrote := false, zopfliContent := 0 },
    jpegProbe := fun _ _ => { isSuccess := false, outSize := none },
    webpProbe := fun _ _ => { isSuccess := false, outSize := none } }

/-- Options for the C8 witness. -/
def c8Opts : Options :=
  { resize_enabled := false, width := 0, height := 0, mode := "quality", quality := 75,
    target_size := 150, output_dir := original_folder, suffix := "-tiny",
    format := keep_original_format, overwrite := false, max_png := false,
    auto_convert_png := false }

/-- Input path for the C8 witness. -/
def c8In : FPath := { dir := "D", stem := "ghost", ext := ".png" }

/-- Witness for C8: the raised FileNotFoundError of the staging stage is
mapped to the generic failure message. -/
theorem process_file_catches_exceptions_witness :
    (process_file c8In c8Opts c8Env (fun _ => none)).ok = false ∧
    (process_file c8In c8Opts c8Env (fun _ => none)).msg =
      "An unexpected error occurred: FileNotFoundError: D/ghost.png" := by
  exact process_file_catches_exceptions c8In c8Opts c8Env (fun _ => none)
    "FileNotFoundError: D/ghost.png" (by decide) rfl

/-- PNG tool environment of the C1 failing input: pngquant exits 98
(reporting "Already Optimized" and writing nothing); zopflipng is
present but never invoked because the maximum pass is off. -/
def c1Png : PngEnv :=
  { pngquantFound := true, zopflipngFound := true,
    quantRun := some { returncode := 98, stdoutStr := "", stderrStr := "" },
    quantWrote := false, quantContent := 0,
    zopfliRun := some { returncode := 0, stdoutStr := "", stderrStr := "" },
    zopfliWrote := false, zopfliContent := 0 }

/-- Image value of the C1 failing input (never consulted: auto-convert
is off). -/
def c1Img : PILImage :=
  { mode := "RGBA", transparencyInInfo := false, bands := ["R", "G", "B", "A"],
    alphaSamples := [255] }

/-- Environment of the C1 failing input. -/
def c1Env : Env :=
  { inputImage := Except.ok c1Img,
    pathIsAscii := true,
    resizeOutcome := Except.ok 1, convertOutcome := Except.ok 2,
    jpeg := { found := true, run := none, wrote := false, content := 0 },
    webp := { found := true, run := none, wrote := false, content := 0 },
    icoOutcome := Except.ok 3, png := c1Png,
    jpegProbe := fun _ _ => { isSuccess := false, outSize := none },
    webpProbe := fun _ _ => { isSuccess := false, outSize := none } }

/-- Options of the C1 failing input: PNG kept as PNG, quality mode,
maximum PNG compression off, no overwrite. -/
def c1Opts : Options :=
  { resize_enabled := false, width := 0, height := 0, mode := "quality", quality := 75,
    target_size := 150, output_dir := original_folder, suffix := "-tiny",
    format := keep_original_format, overwrite := false, max_png := false,
    auto_convert_png := false }

/-- Input path of the C1 failing input. -/
def c1In : FPath := { dir := "D", stem := "photo", ext := ".png" }

/-- Filesystem of the C1 failing input: only the input file exists. -/
def c1Fs : FS := fun q => if q = c1In then some 7 else none

/-- The temp output file process_file creates for this input. -/
def c1TmpOut : FPath := { dir := "TMP", stem := "tmp_out", ext := ".png" }

/-- C1 is violated by the code: on the PNG path where the quantizer
reports "Already Optimized" and the maximum-compression pass is
disabled, compress_png copies the original to the temp output file, and
process_file then removes that path from temp_files (line 230) without
having moved it, so the finally block never deletes it: the call
reports success, yet the temp output file (holding a copy of the
original's bytes) is left behind in the temp directory — and no file is
produced at the computed final output path. -/
theorem process_file_already_optimized_leak :
    (process_file c1In c1Opts c1Env c1Fs).ok = true ∧
    (process_file c1In c1Opts c1Env c1Fs).msg = "'photo.png' is already optimized." ∧
    c1TmpOut ∈ (process_file c1In c1Opts c1Env c1Fs).created ∧
    (process_file c1In c1Opts c1Env c1Fs).fs c1TmpOut = some 7 ∧
    (process_file c1In c1Opts c1Env c1Fs).fs (final_output_path c1In c1Opts "png") = none := by
  refine ⟨rfl, rfl, ?_, rfl, rfl⟩
  decide
